import Mathlib

/-!
Shallow embedding of the ConfigDoctor configuration-provider subsystem
(`src/configdoctor/config_reader.py` and the CLI helper
`_extract_line_number_from_error` of `src/configdoctor/__init__.py`).

Python values are modelled by `PyVal` (Python `None` is `PyVal.none`);
exceptions are modelled by `Except ConfigErr`; the single Python exception
class `ConfigError` is split into structured constructors mirroring the
data interpolated into the message at each raise site.  File reads and the
external format parsers are passed in as parameters (`readResult`,
`parse`, `load`), since they are external collaborators of the core.
-/

namespace ConfigDoctor

/-- A Python value as produced by the JSON/YAML/TOML parsers.
Python `None` is the constructor `PyVal.none`; mappings are association
lists with unique keys, matching parser output. -/
inductive PyVal where
  | none
  | bool (b : Bool)
  | int (n : Int)
  | str (s : String)
  | list (xs : List PyVal)
  | dict (m : List (String × PyVal))

/-- Python truthiness test restricted to the values `PyVal` models:
`None`, `False`, `0`, `""`, `[]` and `{}` are falsy. -/
def PyVal.falsy : PyVal → Bool
  | .none => true
  | .bool b => !b
  | .int n => n == 0
  | .str s => s == ""
  | .list xs => xs.isEmpty
  | .dict m => m.isEmpty

/-- `isinstance(v, dict)`. -/
def PyVal.isDict : PyVal → Bool
  | .dict _ => true
  | _ => false

/-- Structured rendering of the `ConfigError` raise sites of
`config_reader.py`; each constructor carries the data interpolated into
the corresponding message, and `attributeError` models the uncaught
`AttributeError` from calling `.get` on a non-dict document. -/
inductive ConfigErr where
  | notFound (msg : String)
  | notAFile (msg : String)
  | unsupportedFormat (msg : String)
  | missingCapability (msg : String)
  | parseError (msg : String)
  | validationFailed
  | missingRequiredKeys (keys : List String)
  | attributeError
deriving DecidableEq

/-- The `ConfigType` enum. -/
inductive ConfigType where
  | TOML
  | YAML
  | JSON
deriving DecidableEq

/-- `extension.lower().lstrip(".")` of `detect_config_type_by_extension`:
lower-case every character, then strip all leading dots. -/
def cleanExtension (extension : String) : List Char :=
  (extension.data.map Char.toLower).dropWhile (fun c => c == '.')

/-- `detect_config_type_by_extension`.  `tomlAvailable` models whether the
optional `toml` import succeeded at module load time. -/
def detect_config_type_by_extension (tomlAvailable : Bool) (extension : String) :
    Except ConfigErr ConfigType :=
  let cleaned := cleanExtension extension
  if cleaned = "json".data then .ok .JSON
  else if cleaned = "yaml".data ∨ cleaned = "yml".data then .ok .YAML
  else if cleaned = "toml".data then
    if tomlAvailable then .ok .TOML
    else .error (.missingCapability "TOML support requires the toml package installation")
  else .error (.unsupportedFormat ("Unsupported config file extension: " ++ extension))

/-- The mutable state of an `AbstractConfig` source: the `_config`
attribute, initialised to `None`.  A cached document and "no cache yet"
are both represented through `PyVal`, exactly as in Python where
`_config is None` conflates the two. -/
structure SourceState where
  config : PyVal

/-- `AbstractConfig.get_loaded_config`.  `load` is the outcome of
`self._load_config()` (a pure function of the on-disk file, which is
fixed between reloads).  Returns the value handed to the caller, the
state after the call, and whether a load was performed. -/
def getLoadedConfig (load : Except ConfigErr PyVal) (s : SourceState) :
    Except ConfigErr (PyVal × SourceState × Bool) :=
  match s.config with
  | .none =>
    match load with
    | .error e => .error e
    | .ok v => .ok (v, ⟨v⟩, true)
  | c => .ok (c, s, false)

/-- `AbstractConfig.reload`: `self._config = self._load_config()`.  When
the load raises, the assignment never happens and the old cache survives. -/
def sourceReload (load : Except ConfigErr PyVal) (_s : SourceState) :
    Except ConfigErr SourceState :=
  match load with
  | .error e => .error e
  | .ok v => .ok ⟨v⟩

/-- `AbstractConfig.get`: `self.get_loaded_config().get(key, default)`.
Python raises `AttributeError` when the loaded document is not a dict
(for instance `None`). -/
def sourceGet (load : Except ConfigErr PyVal) (s : SourceState)
    (key : String) (default : PyVal) : Except ConfigErr (PyVal × SourceState) :=
  match getLoadedConfig load s with
  | .error e => .error e
  | .ok (config, s2, _) =>
    match config with
    | .dict m => .ok ((m.lookup key).getD default, s2)
    | _ => .error .attributeError

/-- Python `str.strip()` with the default whitespace set. -/
def pyStrip (s : String) : String :=
  let ws : Char → Bool := fun c =>
    c == ' ' || c == '\t' || c == '\n' || c == '\r' || c == '\x0b' || c == '\x0c'
  ⟨((s.data.dropWhile ws).reverse.dropWhile ws).reverse⟩

/-- `JSONConfig._load_config`.  `readResult` is the outcome of opening and
reading the file (`Option.none` models `FileNotFoundError`); `parse` is
`json.loads`, returning the decoder error message on failure.  The
parsed value is returned verbatim. -/
def jsonLoadConfig (configPath : String) (readResult : Option String)
    (parse : String → Except String PyVal) : Except ConfigErr PyVal :=
  match readResult with
  | Option.none => .error (.notFound ("Config file not found: " ++ configPath))
  | Option.some content =>
    let stripped := pyStrip content
    if stripped = "" then .ok (.dict [])
    else
      match parse stripped with
      | .ok v => .ok v
      | .error msg => .error (.parseError ("Invalid JSON in config file: " ++ msg))

/-- `YAMLConfig._load_config` (with PyYAML available).  The result of
`yaml.safe_load(content)` is combined with `or {}`: a falsy parse result
becomes the empty dict, a truthy one is returned unchanged. -/
def yamlLoadConfig (configPath : String) (readResult : Option String)
    (parse : String → Except String PyVal) : Except ConfigErr PyVal :=
  match readResult with
  | Option.none => .error (.notFound ("Config file not found: " ++ configPath))
  | Option.some content =>
    let stripped := pyStrip content
    if stripped = "" then .ok (.dict [])
    else
      match parse stripped with
      | .ok v => .ok (if v.falsy then .dict [] else v)
      | .error msg => .error (.parseError ("Invalid YAML in config file: " ++ msg))

/-- Python `key.split(".")`: split on every dot, keeping empty pieces
(`"".split(".") == [""]`, `"a..b".split(".") == ["a", "", "b"]`). -/
def pySplitDot (s : String) : List String :=
  go [] s.data
where
  go (acc : List Char) : List Char → List String
    | [] => [⟨acc.reverse⟩]
    | c :: cs => if c == '.' then ⟨acc.reverse⟩ :: go [] cs else go (acc ++ [c]) cs

/-- The state of a `ConfigurationProvider`: its `ConfigSource` and the
optional pydantic model, modelled as a predicate saying whether a
document validates. -/
structure ProviderState where
  source : SourceState
  vmodel : Option (PyVal → Bool)

/-- The `for key in keys` loop of `ConfigurationProvider.get_nested`,
started at `current`: return `default` as soon as the current value is
not a dict or the key is absent, otherwise descend. -/
def getNestedLoop (current : PyVal) (keys : List String) (default : PyVal) : PyVal :=
  match keys with
  | [] => current
  | k :: ks =>
    match current with
    | .dict m =>
      match m.lookup k with
      | .some v => getNestedLoop v ks default
      | .none => default
    | _ => default

/-- `ConfigurationProvider.get_nested(*keys, default)`. -/
def providerGetNested (load : Except ConfigErr PyVal) (p : ProviderState)
    (keys : List String) (default : PyVal) :
    Except ConfigErr (PyVal × ProviderState) :=
  match getLoadedConfig load p.source with
  | .error e => .error e
  | .ok (config, s2, _) => .ok (getNestedLoop config keys default, ⟨s2, p.vmodel⟩)

/-- `ConfigurationProvider.get(key, default)`: a key containing `"."` is
split and resolved through `get_nested`; otherwise the top-level
`get` of the source is used. -/
def providerGet (load : Except ConfigErr PyVal) (p : ProviderState)
    (key : String) (default : PyVal) : Except ConfigErr (PyVal × ProviderState) :=
  if key.data.contains '.' then
    providerGetNested load p (pySplitDot key) default
  else
    match sourceGet load p.source key default with
    | .error e => .error e
    | .ok (v, s2) => .ok (v, ⟨s2, p.vmodel⟩)

/-- `ConfigurationProvider.as_dict()`: `self.config.get_loaded_config()`. -/
def asDict (load : Except ConfigErr PyVal) (p : ProviderState) :
    Except ConfigErr (PyVal × ProviderState) :=
  match getLoadedConfig load p.source with
  | .error e => .error e
  | .ok (config, s2, _) => .ok (config, ⟨s2, p.vmodel⟩)

/-- `ConfigurationProvider.__init__` after the factory has detected the
format and checked that the path is an existing file.
`self.factory.create_config()` constructs the source with an empty cache
and does not parse; `_validate_with_model` (hence the initial load) runs
only when a validation model was supplied; the watchdog capability check
runs last. -/
def providerInit (load : Except ConfigErr PyVal) (vmodel : Option (PyVal → Bool))
    (watchForChanges : Bool) (observerAvailable : Bool) :
    Except ConfigErr ProviderState :=
  let source : SourceState := ⟨.none⟩
  let watchCheck : Except ConfigErr Unit :=
    if watchForChanges && !observerAvailable then
      .error (.missingCapability "File watching requires the watchdog package installation")
    else .ok ()
  match vmodel with
  | Option.none =>
    match watchCheck with
    | .error e => .error e
    | .ok () => .ok ⟨source, vmodel⟩
  | Option.some valid =>
    match getLoadedConfig load source with
    | .error e => .error e
    | .ok (doc, s2, _) =>
      if valid doc then
        match watchCheck with
        | .error e => .error e
        | .ok () => .ok ⟨s2, vmodel⟩
      else .error .validationFailed

/-- `ConfigurationProvider.reload`: `self.config.reload()` (an
unconditional replacement of the source cache when the load succeeds),
then `_validate_with_model` when a model is set.  The provider state is
returned alongside the outcome because a `ValidationFailed` exception
propagates after the source cache has already been replaced. -/
def providerReload (load : Except ConfigErr PyVal) (p : ProviderState) :
    Except ConfigErr Unit × ProviderState :=
  match load with
  | .error e => (.error e, p)
  | .ok v =>
    let p2 : ProviderState := ⟨⟨v⟩, p.vmodel⟩
    match p.vmodel with
    | Option.none => (.ok (), p2)
    | Option.some valid =>
      match getLoadedConfig load p2.source with
      | .error e => (.error e, p2)
      | .ok (doc, s3, _) =>
        if valid doc then (.ok (), ⟨s3, p.vmodel⟩)
        else (.error .validationFailed, ⟨s3, p.vmodel⟩)

/-- The inner `for key in keys` loop of `ConfigurationProvider.validate`:
does the dotted path fail to resolve (absent key or non-dict
intermediate)?  A present value, falsy or not, resolves. -/
def pathMissing (doc : PyVal) (keys : List String) : Bool :=
  match keys with
  | [] => false
  | k :: ks =>
    match doc with
    | .dict m =>
      match m.lookup k with
      | .some v => pathMissing v ks
      | .none => true
    | _ => true

/-- The outer loop of `ConfigurationProvider.validate`: accumulate every
required path that fails to resolve, in input order. -/
def collectMissing (doc : PyVal) : List String → List String
  | [] => []
  | keyPath :: rest =>
    if pathMissing doc (pySplitDot keyPath) then keyPath :: collectMissing doc rest
    else collectMissing doc rest

/-- `ConfigurationProvider.validate(required_keys)`: raises
`MissingRequiredKeys` with the full accumulated list, returns `True`
when nothing is missing. -/
def providerValidate (load : Except ConfigErr PyVal) (p : ProviderState)
    (requiredKeys : List String) : Except ConfigErr (Bool × ProviderState) :=
  match asDict load p with
  | .error e => .error e
  | .ok (doc, p2) =>
    let missing := collectMissing doc requiredKeys
    if missing.isEmpty then .ok (true, p2)
    else .error (.missingRequiredKeys missing)

/-- `ConfigFileEventHandler.on_modified`.  The callbacks are modelled by
presence flags plus an observable record of what was delivered: the
result is the provider state after the event, whether `on_config_change`
was invoked, and the error handed to `on_config_error` (if any).  The
function is total: the handler never re-raises into the dispatch
context of the watcher. -/
def onModified (load : Except ConfigErr PyVal) (eventPath configPath : String)
    (p : ProviderState) (hasOnChange hasOnError : Bool) :
    ProviderState × Bool × Option ConfigErr :=
  if eventPath = configPath then
    match providerReload load p with
    | (.ok (), p2) => (p2, hasOnChange, Option.none)
    | (.error e, p2) => (p2, false, if hasOnError then Option.some e else Option.none)
  else (p, false, Option.none)

/-- A constructed `ConfigurationProvider` object, reduced to the facts
claim-relevant here: its identity and the arguments it was built from.
Identity is modelled by a construction counter threaded through calls. -/
structure ProviderInstance where
  instId : Nat
  args : String

/-- One `ConfigurationProvider(...)` construction: a fresh object
identity, advancing the counter. -/
def constructProvider (args : String) (counter : Nat) : ProviderInstance × Nat :=
  (⟨counter, args⟩, counter + 1)

/-- The body of the `lru_cache`-decorated `_cached_provider` helper:
look the argument tuple up in the cache of the decorator; construct
on a miss.  (`args` stands for the hashable `cache_key` tuple.) -/
def cachedProviderCall (cache : List (String × ProviderInstance)) (args : String)
    (counter : Nat) : ProviderInstance × Nat :=
  match cache.lookup args with
  | .some p => (p, counter)
  | .none => constructProvider args counter

/-- `get_config_provider`.  In the source the `lru_cache`-decorated
`_cached_provider` is defined inside the function body, so its cache is
created empty on every call; this is embedded by passing `[]` as the
cache on each call. -/
def get_config_provider (useCache : Bool) (args : String) (counter : Nat) :
    ProviderInstance × Nat :=
  if useCache then cachedProviderCall [] args counter
  else constructProvider args counter

/-- Substring test over character lists (Python `needle in hay`). -/
def containsSub (needle : List Char) : List Char → Bool
  | [] => needle.isEmpty
  | c :: cs => needle.isPrefixOf (c :: cs) || containsSub needle cs

/-- Digit run to the number it denotes (Python `int` on a digit string). -/
def natOfDigits (ds : List Char) : Nat :=
  ds.foldl (fun n c => 10 * n + (c.toNat - 48)) 0

/-- Match one regex pattern of `_extract_line_number_from_error` at the
head of `cs`: the literal `pre`, then a maximal nonempty digit run, then
the literal `post`.  Returns the number denoted by the digits. -/
def matchAt (pre post cs : List Char) : Option Nat :=
  if pre.isPrefixOf cs then
    let rest := cs.drop pre.length
    let ds := rest.takeWhile Char.isDigit
    if ds.isEmpty then Option.none
    else if post.isPrefixOf (rest.drop ds.length) then Option.some (natOfDigits ds)
    else Option.none
  else Option.none

/-- `re.search` for such a pattern: leftmost match. -/
def searchPat (pre post : List Char) : List Char → Option Nat
  | [] => Option.none
  | c :: cs =>
    match matchAt pre post (c :: cs) with
    | .some n => .some n
    | .none => searchPat pre post cs

/-- The `patterns` list of `_extract_line_number_from_error`, each regex
reduced to (literal before the digits, literal after the digits). -/
def lineNumberPatterns : List (List Char × List Char) :=
  [("line ".data, []), ("at line ".data, []), ("line ".data, " column".data),
   ("line ".data, []), ("line ".data, [])]

/-- The `for pattern in patterns` loop: on a match, use it when
`0 <= int(group) - 1 < len(lines)`, otherwise fall through to the next
pattern. -/
def tryPatterns (lineCount : Nat) : List (List Char × List Char) → List Char → Option Nat
  | [], _ => Option.none
  | (pre, post) :: rest, cs =>
    match searchPat pre post cs with
    | .some n => if 1 ≤ n ∧ n ≤ lineCount then .some (n - 1) else tryPatterns lineCount rest cs
    | .none => tryPatterns lineCount rest cs

/-- The fallback test of `_extract_line_number_from_error`: the stripped
line ends with `":"`, or the raw line contains `"="` while its stripped
form ends with neither kind of quote. -/
def lineTriggers (line : String) : Bool :=
  let stripped := pyStrip line
  stripped.data.reverse.headD ' ' == ':' ||
    (line.data.contains '=' &&
      !(stripped.data.reverse.headD ' ' == '\x22') &&
      !(stripped.data.reverse.headD ' ' == '\x27'))

/-- The `for i, line in enumerate(lines)` fallback loop: index of the
first line satisfying `lineTriggers`. -/
def heuristicLine (i : Nat) : List String → Option Nat
  | [] => Option.none
  | l :: ls => if lineTriggers l then .some i else heuristicLine (i + 1) ls

/-- `_extract_line_number_from_error(error_message, lines)` from the CLI
front end (`__init__.py`): lower-case the message, try the regex
patterns, fall back to the heuristic first suspicious line, else `None`. -/
def extractLineNumberFromError (errorMessage : String) (lines : List String) :
    Option Nat :=
  let lower := errorMessage.data.map Char.toLower
  match tryPatterns lines.length lineNumberPatterns lower with
  | .some i => .some i
  | .none => heuristicLine 0 lines

/-! ## Documents used by concrete examples -/

/-- The document `{"a": {"b": {"c": 42}}}`. -/
def doc1 : PyVal := .dict [("a", .dict [("b", .dict [("c", .int 42)])])]

/-- The document `{"a": {"b": {}}}`. -/
def doc2 : PyVal := .dict [("a", .dict [("b", .dict [])])]

/-- The document `{"a": 5}`. -/
def doc3 : PyVal := .dict [("a", .int 5)]

/-- The document `{"a": {"b": 1}}`. -/
def docA : PyVal := .dict [("a", .dict [("b", .int 1)])]

/-! ## Claim theorems -/

/-- C1: `ConfigurationProvider.get` dispatches a key containing `"."` to
`get_nested` on the split segments and any other key to the top-level
`get` of the source; the `get_nested` walk follows each key in order and
yields the default as soon as an intermediate value is not a mapping or
a key is absent, never raising on a loaded document; on
`{"a": {"b": {"c": 42}}}`, `get("a.b.c", d)` returns `42`, on
`{"a": {"b": {}}}` and `{"a": 5}` it returns `d`. -/
theorem c1_get_dotted_dispatch_and_nested_walk :
    (∀ load p key default, key.data.contains '.' = true →
      providerGet load p key default = providerGetNested load p (pySplitDot key) default) ∧
    (∀ load p key default, key.data.contains '.' = false →
      providerGet load p key default =
        match sourceGet load p.source key default with
        | .error e => .error e
        | .ok (v, s2) => .ok (v, ⟨s2, p.vmodel⟩)) ∧
    (∀ current default, getNestedLoop current [] default = current) ∧
    (∀ current k ks default, getNestedLoop current (k :: ks) default =
        match current with
        | .dict m =>
          match m.lookup k with
          | .some v => getNestedLoop v ks default
          | .none => default
        | _ => default) ∧
    (∀ load doc m keys default, doc ≠ PyVal.none →
      providerGetNested load ⟨⟨doc⟩, m⟩ keys default
        = .ok (getNestedLoop doc keys default, ⟨⟨doc⟩, m⟩)) ∧
    (∀ d, providerGet (.ok doc1) ⟨⟨doc1⟩, Option.none⟩ "a.b.c" d = .ok (.int 42, ⟨⟨doc1⟩, Option.none⟩)) ∧
    (∀ d, providerGet (.ok doc2) ⟨⟨doc2⟩, Option.none⟩ "a.b.c" d = .ok (d, ⟨⟨doc2⟩, Option.none⟩)) ∧
    (∀ d, providerGet (.ok doc3) ⟨⟨doc3⟩, Option.none⟩ "a.b.c" d = .ok (d, ⟨⟨doc3⟩, Option.none⟩)) := by
  refine ⟨?_, ?_, ?_, ?_, ?_, ?_, ?_, ?_⟩
  · intro load p key default h
    have h2 : '.' ∈ key.data := by simpa using h
    simp [providerGet, h2]
  · intro load p key default h
    have h2 : '.' ∉ key.data := by simpa using h
    simp [providerGet, h2]
  · intro current default
    rfl
  · intro current k ks default
    rfl
  · intro load doc m keys default h
    cases doc with
    | none => exact absurd rfl h
    | bool b => rfl
    | int n => rfl
    | str s => rfl
    | list xs => rfl
    | dict m2 => rfl
  · intro d; rfl
  · intro d; rfl
  · intro d; rfl

/-- Witness for C1: concrete applications discharging each hypothesis. -/
theorem c1_witness :
    providerGet (.ok doc1) ⟨⟨doc1⟩, Option.none⟩ "a.b.c" (.int 0)
      = providerGetNested (.ok doc1) ⟨⟨doc1⟩, Option.none⟩ (pySplitDot "a.b.c") (.int 0) ∧
    providerGetNested (.ok doc1) ⟨⟨doc1⟩, Option.none⟩ ["a"] (.int 0)
      = .ok (getNestedLoop doc1 ["a"] (.int 0), ⟨⟨doc1⟩, Option.none⟩) :=
  ⟨c1_get_dotted_dispatch_and_nested_walk.1 (.ok doc1) ⟨⟨doc1⟩, Option.none⟩ "a.b.c" (.int 0)
      (by decide),
   c1_get_dotted_dispatch_and_nested_walk.2.2.2.2.1 (.ok doc1) doc1 Option.none ["a"] (.int 0)
      (fun h => PyVal.noConfusion h)⟩

/-- C2 counterexample: with no validation model, constructing a provider
over a file whose load raises a parse error succeeds — the constructor
performs no load at all, refuting the claim that it raises the parse
error even when no schema is supplied. -/
theorem c2_counterexample :
    providerInit (.error (.parseError "Invalid JSON in config file: Expecting value: line 1 column 1 (char 0)"))
      Option.none false true = .ok ⟨⟨.none⟩, Option.none⟩ := rfl

/-- C2 (amended): the constructor performs an eager initial load — and
hence fails on an unparseable file — only when a validation model is
supplied; with no model it performs no load and returns a provider whose
first document access (here a top-level `get` or a dotted `get`) raises
the parse error. -/
theorem c2_eager_load_only_with_model :
    (∀ e, providerInit (.error e) Option.none false true = .ok ⟨⟨.none⟩, Option.none⟩) ∧
    (∀ e valid, providerInit (.error e) (Option.some valid) false true = .error e) ∧
    (∀ e key default, providerGet (.error e) ⟨⟨.none⟩, Option.none⟩ key default = .error e) := by
  refine ⟨fun e => rfl, fun e valid => rfl, ?_⟩
  intro e key default
  by_cases h : '.' ∈ key.data
  · simp [providerGet, h, providerGetNested, getLoadedConfig]
  · simp [providerGet, h, sourceGet, getLoadedConfig]

/-- C3 counterexample: a JSON source whose document parses to `None` is
never cached — the state after the first `get_loaded_config` call is the
fresh state again, so this very call, standing for every subsequent
call, still performs a load (third component `true`), refuting
"every subsequent call performs no further load" for this source. -/
theorem c3_counterexample :
    getLoadedConfig (.ok PyVal.none) ⟨PyVal.none⟩
      = .ok (PyVal.none, ⟨PyVal.none⟩, true) := rfl

/-- C3 (amended): for every source whose load yields a non-`None`
document, the first `get_loaded_config` after construction or `reload`
performs exactly one load, and every subsequent call without an
intervening reload performs no load and returns the identical cached
document; a `None` load result defeats the cache-presence check. -/
theorem c3_cache_idempotent (v : PyVal) (hv : v ≠ PyVal.none) :
    getLoadedConfig (.ok v) ⟨.none⟩ = .ok (v, ⟨v⟩, true) ∧
    getLoadedConfig (.ok v) ⟨v⟩ = .ok (v, ⟨v⟩, false) ∧
    (∀ s, sourceReload (.ok v) s = .ok ⟨v⟩) := by
  refine ⟨rfl, ?_, fun s => rfl⟩
  cases v with
  | none => exact absurd rfl hv
  | bool b => rfl
  | int n => rfl
  | str s => rfl
  | list xs => rfl
  | dict m => rfl

/-- Witness for C3 at the document `{"k": 1}`. -/
theorem c3_witness :
    getLoadedConfig (.ok (PyVal.dict [("k", .int 1)])) ⟨.none⟩
      = .ok (.dict [("k", .int 1)], ⟨.dict [("k", .int 1)]⟩, true) ∧
    getLoadedConfig (.ok (PyVal.dict [("k", .int 1)])) ⟨.dict [("k", .int 1)]⟩
      = .ok (.dict [("k", .int 1)], ⟨.dict [("k", .int 1)]⟩, false) :=
  ⟨(c3_cache_idempotent (.dict [("k", .int 1)]) (fun h => PyVal.noConfusion h)).1,
   (c3_cache_idempotent (.dict [("k", .int 1)]) (fun h => PyVal.noConfusion h)).2.1⟩

/-- C4: format detection lower-cases the extension and strips leading
dots, so it is case-insensitive and dot-insensitive; the cleaned forms
`json`, `yaml`/`yml` and `toml` map to the corresponding tags, `toml`
fails with the missing-capability error when the TOML parser is absent,
and every other extension fails with the unsupported-format error.  The
function is pure, so it has no side effects. -/
theorem c4_detect_format :
    (∀ t e, cleanExtension e = "json".data →
      detect_config_type_by_extension t e = .ok .JSON) ∧
    (∀ t e, cleanExtension e = "yaml".data ∨ cleanExtension e = "yml".data →
      detect_config_type_by_extension t e = .ok .YAML) ∧
    (∀ e, cleanExtension e = "toml".data →
      detect_config_type_by_extension true e = .ok .TOML) ∧
    (∀ e, cleanExtension e = "toml".data →
      detect_config_type_by_extension false e
        = .error (.missingCapability "TOML support requires the toml package installation")) ∧
    (∀ t e, cleanExtension e ≠ "json".data → cleanExtension e ≠ "yaml".data →
        cleanExtension e ≠ "yml".data → cleanExtension e ≠ "toml".data →
      detect_config_type_by_extension t e
        = .error (.unsupportedFormat ("Unsupported config file extension: " ++ e))) ∧
    (∀ t e1 e2, cleanExtension e1 = cleanExtension e2 →
      (detect_config_type_by_extension t e1).toOption
        = (detect_config_type_by_extension t e2).toOption) ∧
    detect_config_type_by_extension true ".JsOn" = .ok .JSON ∧
    detect_config_type_by_extension false "YAML" = .ok .YAML ∧
    detect_config_type_by_extension false "..YmL" = .ok .YAML ∧
    detect_config_type_by_extension true "TOML" = .ok .TOML ∧
    detect_config_type_by_extension true "json" = .ok .JSON ∧
    detect_config_type_by_extension false ".toml"
      = .error (.missingCapability "TOML support requires the toml package installation") ∧
    detect_config_type_by_extension true ".xml"
      = .error (.unsupportedFormat "Unsupported config file extension: .xml") := by
  refine ⟨?_, ?_, ?_, ?_, ?_, ?_, rfl, rfl, rfl, rfl, rfl, rfl, rfl⟩
  · intro t e h
    simp [detect_config_type_by_extension, h]
  · intro t e h
    rcases h with h | h <;> simp [detect_config_type_by_extension, h]
  · intro e h
    simp [detect_config_type_by_extension, h]
  · intro e h
    simp [detect_config_type_by_extension, h]
  · intro t e h1 h2 h3 h4
    simp [detect_config_type_by_extension, h1, h2, h3, h4]
  · intro t e1 e2 h
    simp only [detect_config_type_by_extension, h]
    split_ifs <;> rfl

/-- Witness for C4: the hypotheses discharged at concrete extensions. -/
theorem c4_witness :
    detect_config_type_by_extension true ".JSON" = .ok .JSON ∧
    detect_config_type_by_extension false ".Yml" = .ok .YAML ∧
    detect_config_type_by_extension true ".cfg"
      = .error (.unsupportedFormat "Unsupported config file extension: .cfg") ∧
    (detect_config_type_by_extension true "Json").toOption
      = (detect_config_type_by_extension true ".json").toOption :=
  ⟨c4_detect_format.1 true ".JSON" (by decide),
   c4_detect_format.2.1 false ".Yml" (Or.inr (by decide)),
   c4_detect_format.2.2.2.2.1 true ".cfg" (by decide) (by decide) (by decide) (by decide),
   c4_detect_format.2.2.2.2.2.1 true "Json" ".json" (by decide)⟩

/-- C5: `ConfigurationProvider.reload` first delegates to the source
`reload`, which unconditionally replaces the source cache with the new
load result; when the configured validation predicate then rejects the
new document, the `ValidationFailed` error propagates while the source
cache retains the new (unvalidated) document, so a subsequent `as_dict`
observes the post-edit content. -/
theorem c5_reload_validation_failure :
    (∀ v s, sourceReload (.ok v) s = .ok ⟨v⟩) ∧
    (∀ (valid : PyVal → Bool) s v, valid v = false →
      providerReload (.ok v) ⟨s, Option.some valid⟩
        = (.error .validationFailed, ⟨⟨v⟩, Option.some valid⟩)) ∧
    (∀ v m, asDict (.ok v) ⟨⟨v⟩, m⟩ = .ok (v, ⟨⟨v⟩, m⟩)) := by
  refine ⟨fun v s => rfl, ?_, ?_⟩
  · intro valid s v h
    cases v <;> simp [providerReload, getLoadedConfig, h]
  · intro v m
    cases v <;> rfl

/-- Witness for C5: reloading `{"a": 2}` under a predicate rejecting it
leaves the new document in the source cache and `as_dict` returns it. -/
theorem c5_witness :
    providerReload (.ok (PyVal.dict [("a", .int 2)]))
        ⟨⟨.dict [("a", .int 1)]⟩, Option.some (fun _ => false)⟩
      = (.error .validationFailed, ⟨⟨.dict [("a", .int 2)]⟩, Option.some (fun _ => false)⟩) ∧
    asDict (.ok (PyVal.dict [("a", .int 2)])) ⟨⟨.dict [("a", .int 2)]⟩, Option.some (fun _ => false)⟩
      = .ok (.dict [("a", .int 2)], ⟨⟨.dict [("a", .int 2)]⟩, Option.some (fun _ => false)⟩) :=
  ⟨c5_reload_validation_failure.2.1 (fun _ => false) ⟨.dict [("a", .int 1)]⟩
      (.dict [("a", .int 2)]) rfl,
   c5_reload_validation_failure.2.2 (.dict [("a", .int 2)]) (Option.some (fun _ => false))⟩

/-- C6: `validate(required_keys)` checks each dotted path for presence
(a present falsy value counts as present; only an absent key or a
non-mapping intermediate counts as missing), accumulates all missing
paths in input order instead of failing on the first, raises
`MissingRequiredKeys` carrying exactly that list, and returns `True`
when none are missing; against `{"a": {"b": 1}}`,
`validate(["a.b", "x.y"])` fails listing exactly `["x.y"]`. -/
theorem c6_validate_required_keys :
    (∀ doc, collectMissing doc [] = []) ∧
    (∀ doc keyPath rest, collectMissing doc (keyPath :: rest)
        = if pathMissing doc (pySplitDot keyPath) then keyPath :: collectMissing doc rest
          else collectMissing doc rest) ∧
    (∀ (m : List (String × PyVal)) k v, m.lookup k = .some v →
      pathMissing (.dict m) [k] = false) ∧
    (∀ load doc m keys, doc ≠ PyVal.none →
      providerValidate load ⟨⟨doc⟩, m⟩ keys
        = if (collectMissing doc keys).isEmpty then .ok (true, ⟨⟨doc⟩, m⟩)
          else .error (.missingRequiredKeys (collectMissing doc keys))) ∧
    providerValidate (.ok docA) ⟨⟨docA⟩, Option.none⟩ ["a.b", "x.y"]
      = .error (.missingRequiredKeys ["x.y"]) ∧
    providerValidate (.ok docA) ⟨⟨docA⟩, Option.none⟩ ["a.b"]
      = .ok (true, ⟨⟨docA⟩, Option.none⟩) := by
  refine ⟨fun doc => rfl, fun doc keyPath rest => rfl, ?_, ?_, rfl, rfl⟩
  · intro m k v h
    simp [pathMissing, h]
  · intro load doc m keys h
    cases doc with
    | none => exact absurd rfl h
    | bool b => rfl
    | int n => rfl
    | str s => rfl
    | list xs => rfl
    | dict m2 => rfl

/-- Witness for C6: a present falsy value (`False`) counts as present,
and the characterization applied to the loaded document `{"a": 5}`. -/
theorem c6_witness :
    pathMissing (.dict [("a", .bool false)]) ["a"] = false ∧
    providerValidate (.ok doc3) ⟨⟨doc3⟩, Option.none⟩ ["a", "x"]
      = if (collectMissing doc3 ["a", "x"]).isEmpty then .ok (true, ⟨⟨doc3⟩, Option.none⟩)
        else .error (.missingRequiredKeys (collectMissing doc3 ["a", "x"])) :=
  ⟨c6_validate_required_keys.2.2.1 [("a", .bool false)] "a" (.bool false) rfl,
   c6_validate_required_keys.2.2.2.1 (.ok doc3) doc3 Option.none ["a", "x"]
      (fun h => PyVal.noConfusion h)⟩

/-- A pattern hit respects the range check against the line count. -/
theorem tryPatterns_lt (lineCount : Nat) :
    ∀ (pats : List (List Char × List Char)) (cs : List Char) (i : Nat),
      tryPatterns lineCount pats cs = .some i → i < lineCount := by
  intro pats
  induction pats with
  | nil => intro cs i h; simp [tryPatterns] at h
  | cons hd tl ih =>
    intro cs i h
    obtain ⟨pre, post⟩ := hd
    simp only [tryPatterns] at h
    cases hs : searchPat pre post cs with
    | none => rw [hs] at h; exact ih cs i h
    | some n =>
      rw [hs] at h
      by_cases hr : 1 ≤ n ∧ n ≤ lineCount
      · simp only [hr, if_true] at h
        cases h
        omega
      · simp only [hr, if_false] at h
        exact ih cs i h

/-- A heuristic hit is an index into the line list. -/
theorem heuristicLine_lt :
    ∀ (ls : List String) (i j : Nat), heuristicLine i ls = .some j → j < i + ls.length := by
  intro ls
  induction ls with
  | nil => intro i j h; simp [heuristicLine] at h
  | cons l rest ih =>
    intro i j h
    simp only [heuristicLine] at h
    by_cases ht : lineTriggers l = true
    · simp only [ht, if_true] at h
      cases h
      simp
    · simp only [ht, if_false] at h
      have := ih (i + 1) j h
      simp only [List.length_cons]
      omega

/-- C7 counterexample: the `ParseError` raised by the JSON loader for a
malformed body is `"Invalid JSON in config file: " + parser message`; at
the concrete path `settings.json` the payload does not contain the file
path, refuting the claim that the payload carries the offending file
path (and no line-number extraction happens at raise time — the payload
is exactly this string). -/
theorem c7_counterexample :
    jsonLoadConfig "settings.json" (Option.some "\x7binvalid\x7d")
        (fun _ => .error "Expecting property name enclosed in double quotes: line 1 column 2 (char 1)")
      = .error (.parseError "Invalid JSON in config file: Expecting property name enclosed in double quotes: line 1 column 2 (char 1)") ∧
    containsSub "settings.json".data
        "Invalid JSON in config file: Expecting property name enclosed in double quotes: line 1 column 2 (char 1)".data
      = false :=
  ⟨rfl, by decide⟩

/-- C7 (amended): when parsing fails, `get_loaded_config` raises a
`ParseError` whose payload is the underlying parser message prefixed
with `"Invalid JSON in config file: "` — it carries neither the file
path nor an extracted line number; line-number extraction is performed
by the CLI front end on that message, where it is a total function that
only returns in-range indices and falls back to the heuristic first
suspicious line (stripped line ending in `:`, or containing `=` without
a trailing quote) when no embedded line number is found in range. -/
theorem c7_parse_error_payload_and_line_extraction :
    (∀ path content parse m, parse (pyStrip content) = .error m → pyStrip content ≠ "" →
      jsonLoadConfig path (Option.some content) parse
        = .error (.parseError ("Invalid JSON in config file: " ++ m))) ∧
    (∀ msg lines, tryPatterns lines.length lineNumberPatterns (msg.data.map Char.toLower)
          = Option.none →
      extractLineNumberFromError msg lines = heuristicLine 0 lines) ∧
    (∀ msg lines i, extractLineNumberFromError msg lines = .some i → i < lines.length) ∧
    extractLineNumberFromError "Expecting value: line 3 column 1 (char 4)"
        ["\x7b", "  1,", "  2,", "\x7d"] = .some 2 ∧
    extractLineNumberFromError "mysterious failure" ["key:", "value"] = .some 0 ∧
    extractLineNumberFromError "mysterious failure" ["plain", "x = 1"] = .some 1 ∧
    extractLineNumberFromError "mysterious failure" ["plain"] = Option.none := by
  refine ⟨?_, ?_, ?_, rfl, rfl, rfl, rfl⟩
  · intro path content parse m hp hs
    simp only [jsonLoadConfig, hs, if_false, hp]
  · intro msg lines h
    simp only [extractLineNumberFromError, h]
  · intro msg lines i h
    simp only [extractLineNumberFromError] at h
    cases ht : tryPatterns lines.length lineNumberPatterns (msg.data.map Char.toLower) with
    | some n =>
      rw [ht] at h
      cases h
      exact tryPatterns_lt lines.length lineNumberPatterns (msg.data.map Char.toLower) i ht
    | none =>
      rw [ht] at h
      have := heuristicLine_lt lines 0 i h
      omega

/-- Witness for C7: the payload shape at a concrete parse failure, and
the fallback at a message with no embedded line number. -/
theorem c7_witness :
    jsonLoadConfig "app.json" (Option.some "\x7bbad\x7d")
        (fun _ => .error "Expecting value: oops")
      = .error (.parseError "Invalid JSON in config file: Expecting value: oops") ∧
    extractLineNumberFromError "mysterious failure" ["a = 1"]
      = heuristicLine 0 ["a = 1"] :=
  ⟨c7_parse_error_payload_and_line_extraction.1 "app.json" "\x7bbad\x7d"
      (fun _ => .error "Expecting value: oops") "Expecting value: oops" rfl (by decide),
   c7_parse_error_payload_and_line_extraction.2.1 "mysterious failure" ["a = 1"] (by decide)⟩

/-- C8: the watch handler ignores any event whose path differs from the
bound config path; on an exact match it reloads, invokes the
`on_config_change` callback exactly when reload succeeded and the
callback was supplied, and delivers a reload/validation error to
`on_config_error` when supplied, otherwise swallows it — the handler is
a total function, so it never re-raises into the dispatch context of
the watcher. -/
theorem c8_on_modified_dispatch :
    (∀ load eventPath configPath p hasOnChange hasOnError, eventPath ≠ configPath →
      onModified load eventPath configPath p hasOnChange hasOnError
        = (p, false, Option.none)) ∧
    (∀ load path p hasOnChange hasOnError p2, providerReload load p = (.ok (), p2) →
      onModified load path path p hasOnChange hasOnError
        = (p2, hasOnChange, Option.none)) ∧
    (∀ load path p hasOnChange hasOnError e p2, providerReload load p = (.error e, p2) →
      onModified load path path p hasOnChange hasOnError
        = (p2, false, if hasOnError then Option.some e else Option.none)) := by
  refine ⟨?_, ?_, ?_⟩
  · intro load eventPath configPath p hasOnChange hasOnError h
    simp [onModified, h]
  · intro load path p hasOnChange hasOnError p2 h
    simp [onModified, h]
  · intro load path p hasOnChange hasOnError e p2 h
    simp [onModified, h]

/-- Witness for C8: a sibling-file event is ignored; a matching event
whose reload fails delivers the error to the error callback when one is
registered. -/
theorem c8_witness :
    onModified (.ok doc1) "/test/sibling.yaml" "/test/config.yaml"
        ⟨⟨doc1⟩, Option.none⟩ true true
      = (⟨⟨doc1⟩, Option.none⟩, false, Option.none) ∧
    onModified (.error (.parseError "Invalid YAML in config file: boom"))
        "/test/config.yaml" "/test/config.yaml" ⟨⟨doc1⟩, Option.none⟩ true true
      = (⟨⟨doc1⟩, Option.none⟩, false,
         Option.some (.parseError "Invalid YAML in config file: boom")) :=
  ⟨c8_on_modified_dispatch.1 (.ok doc1) "/test/sibling.yaml" "/test/config.yaml"
      ⟨⟨doc1⟩, Option.none⟩ true true (by decide),
   c8_on_modified_dispatch.2.2 (.error (.parseError "Invalid YAML in config file: boom"))
      "/test/config.yaml" ⟨⟨doc1⟩, Option.none⟩ true true
      (.parseError "Invalid YAML in config file: boom") ⟨⟨doc1⟩, Option.none⟩ rfl⟩

/-- C9 counterexample: the YAML loader hands a truthy non-mapping parse
result (here the sequence `[1]`) through unchanged, so its
`get_loaded_config` does not always return a mapping, refuting the
claim as stated. -/
theorem c9_counterexample :
    yamlLoadConfig "cfg.yaml" (Option.some "- 1") (fun _ => .ok (.list [.int 1]))
      = .ok (.list [.int 1]) ∧
    (PyVal.list [.int 1]).isDict = false :=
  ⟨rfl, rfl⟩

/-- C9 (amended): the YAML loader coerces every falsy parse result to
the empty document `{}` and therefore never yields `None`, so its result
always passes the cache-presence check and is cached; the JSON loader
returns the parser output verbatim, so a JSON body `null` loads as
`None`, which is never cached — every call to `get_loaded_config`
re-loads — and makes the source-level `get` raise (`AttributeError`)
instead of returning the default.  Truthy non-mapping YAML results pass
through unchanged. -/
theorem c9_falsy_coercion_and_none_document :
    (∀ path content parse v, parse (pyStrip content) = .ok v → v.falsy = true →
        pyStrip content ≠ "" →
      yamlLoadConfig path (Option.some content) parse = .ok (.dict [])) ∧
    (∀ path readResult parse w,
      yamlLoadConfig path readResult parse = .ok w → w ≠ PyVal.none) ∧
    (∀ path content parse v, parse (pyStrip content) = .ok v → pyStrip content ≠ "" →
      jsonLoadConfig path (Option.some content) parse = .ok v) ∧
    (∀ w, w ≠ PyVal.none → getLoadedConfig (.ok w) ⟨w⟩ = .ok (w, ⟨w⟩, false)) ∧
    getLoadedConfig (.ok PyVal.none) ⟨PyVal.none⟩ = .ok (PyVal.none, ⟨PyVal.none⟩, true) ∧
    (∀ key default, sourceGet (.ok PyVal.none) ⟨PyVal.none⟩ key default
      = .error .attributeError) := by
  refine ⟨?_, ?_, ?_, ?_, rfl, fun key default => rfl⟩
  · intro path content parse v hp hf hs
    simp only [yamlLoadConfig, hs, if_false, hp, hf, if_true]
  · intro path readResult parse w h
    cases readResult with
    | none => simp [yamlLoadConfig] at h
    | some content =>
      simp only [yamlLoadConfig] at h
      by_cases hs : pyStrip content = ""
      · simp only [hs, if_true] at h
        cases h
        exact fun hc => PyVal.noConfusion hc
      · simp only [hs, if_false] at h
        cases hp : parse (pyStrip content) with
        | error msg => rw [hp] at h; exact absurd h (by simp)
        | ok v =>
          rw [hp] at h
          cases h
          cases hf : v.falsy with
          | true => simp only [hf, if_true]; exact fun hc => PyVal.noConfusion hc
          | false =>
            simp only [Bool.false_eq_true, if_false]
            intro hc
            subst hc
            simp [PyVal.falsy] at hf
  · intro path content parse v hp hs
    simp only [jsonLoadConfig, hs, if_false, hp]
  · intro w h
    cases w with
    | none => exact absurd rfl h
    | bool b => rfl
    | int n => rfl
    | str s => rfl
    | list xs => rfl
    | dict m2 => rfl

/-- Witness for C9: the YAML body `null` (parse result `None`, falsy)
loads as `{}` and is cached on the next access; the JSON body `null`
loads as `None`. -/
theorem c9_witness :
    yamlLoadConfig "cfg.yaml" (Option.some "null") (fun _ => .ok PyVal.none)
      = .ok (.dict []) ∧
    jsonLoadConfig "cfg.json" (Option.some "null") (fun _ => .ok PyVal.none)
      = .ok PyVal.none ∧
    getLoadedConfig (.ok (PyVal.dict [])) ⟨.dict []⟩ = .ok (.dict [], ⟨.dict []⟩, false) :=
  ⟨c9_falsy_coercion_and_none_document.1 "cfg.yaml" "null" (fun _ => .ok PyVal.none)
      PyVal.none rfl rfl (by decide),
   c9_falsy_coercion_and_none_document.2.2.1 "cfg.json" "null" (fun _ => .ok PyVal.none)
      PyVal.none rfl (by decide),
   c9_falsy_coercion_and_none_document.2.2.2.1 (.dict [])
      (fun h => PyVal.noConfusion h)⟩

/-- C10: with `use_cache=True`, the `lru_cache`-decorated helper is
defined inside every call, so its cache is empty at every call; two
calls with identical arguments therefore each construct a fresh
provider instance — the flag produces no observable instance reuse. -/
theorem c10_use_cache_no_reuse (args : String) (counter : Nat) :
    get_config_provider true args counter = (⟨counter, args⟩, counter + 1) ∧
    get_config_provider true args ((get_config_provider true args counter).2)
      = (⟨counter + 1, args⟩, counter + 2) ∧
    (get_config_provider true args counter).1.instId
      ≠ (get_config_provider true args ((get_config_provider true args counter).2)).1.instId := by
  refine ⟨rfl, rfl, ?_⟩
  simp [get_config_provider, cachedProviderCall, constructProvider]

end ConfigDoctor
